import Mathlib

/-!
# Verification of the EFS replication-configuration resource and the
# mediaconvert / sfn service packages

Shallow embedding of:
* `internal/service/efs/replication_configuration.go`
* `internal/service/mediaconvert/service_package_gen.go`
* the sfn `service_package_gen.go`

Go machine state (AWS API answers, the Terraform `ResourceData`) is passed
explicitly.  Fallible Go code returns `Except`/`Option`; a Go runtime panic
(nil-pointer dereference, index out of range) is modelled by `Option.none`
on the outside of a result.  The AWS API itself is an oracle: a record of
functions giving the answer of each remote call.  Time-varying behaviour of
the API during a polling loop is modelled by a list of oracles, one per poll;
the timeout of a wait is modelled by exhaustion of that list.
-/

/-! ## AWS SDK data model (aws-sdk-go-v2 `efs` types, pointers as `Option`) -/

/-- `efs.DescribeReplicationConfigurationsInput`. -/
structure DescribeReplicationConfigurationsInput where
  fileSystemId : Option String
deriving DecidableEq, Repr

/-- `awstypes.Destination`; pointer-typed fields become `Option`. -/
structure Destination where
  fileSystemId : Option String
  region : Option String
  status : Option String
deriving DecidableEq, Repr

/-- `awstypes.ReplicationConfigurationDescription`.  The `CreationTime`
pointer is carried as the rendered time string `aws.TimeValue(t).String()`
would produce, since the program only ever formats it.  `Destinations` is a
Go slice of pointers, hence a list of options. -/
structure ReplicationConfigurationDescription where
  creationTime : Option String
  destinations : List (Option Destination)
  originalSourceFileSystemArn : Option String
  sourceFileSystemArn : Option String
  sourceFileSystemId : Option String
  sourceFileSystemRegion : Option String
deriving DecidableEq, Repr

/-- One page of `efs.DescribeReplicationConfigurationsOutput`. -/
structure DescribeReplicationConfigurationsOutput where
  replications : List (Option ReplicationConfigurationDescription)
deriving DecidableEq, Repr

/-- `awstypes.DestinationToCreate`. -/
structure DestinationToCreate where
  availabilityZoneName : Option String
  fileSystemId : Option String
  kmsKeyId : Option String
  region : Option String
deriving DecidableEq, Repr

/-- `efs.CreateReplicationConfigurationInput`. -/
structure CreateReplicationConfigurationInput where
  sourceFileSystemId : Option String
  destinations : List DestinationToCreate
deriving DecidableEq, Repr

/-! ## Go errors -/

/-- The Go `error` values this program produces or consumes:
API errors with a code (`smithy`/`awserr` coded errors), the
`retry.NotFoundError` produced by `findReplicationConfigurations`, the
`tfresource` empty/too-many result errors, `fmt.Errorf("...: %w", err)`
wrapping, and the errors of the `retry.StateChangeConf` wait loop. -/
inductive GoErr where
  | api (code : String)
  | notFoundError (lastError : GoErr)
      (lastRequest : DescribeReplicationConfigurationsInput)
  | emptyResult (lastRequest : Option DescribeReplicationConfigurationsInput)
  | tooManyResults (count : Nat)
  | wrapped (msg : String) (inner : GoErr)
  | timeoutError
  | waitNotFoundError
  | unexpectedState (state : String)
deriving DecidableEq, Repr

/-- The AWS error code of an error, unwrapping `%w` wrapping
(`tfawserr.ErrCodeEquals` resolves codes through `errors.As`). -/
def errCode : GoErr → Option String
  | GoErr.api code => some code
  | GoErr.wrapped _ inner => errCode inner
  | _ => none

/-- `tfawserr.ErrCodeEquals(err, codes...)`; false on a nil error. -/
def errCodeEquals (err : Option GoErr) (codes : List String) : Bool :=
  match err with
  | none => false
  | some e =>
    match errCode e with
    | some c => codes.contains c
    | none => false

/-- `tfresource.NotFound(err)`: true exactly for errors that convert to a
`retry.NotFoundError` via `errors.As` — `retry.NotFoundError` itself, the
`tfresource.EmptyResultError` (whose `As` method converts it), and any
`%w`-wrap of one. -/
def notFound : GoErr → Bool
  | GoErr.notFoundError _ _ => true
  | GoErr.emptyResult _ => true
  | GoErr.waitNotFoundError => true
  | GoErr.wrapped _ inner => notFound inner
  | _ => false

/-- `awstypes.ErrCodeFileSystemNotFound`. -/
def errCodeFileSystemNotFound : String := "FileSystemNotFound"

/-- `awstypes.ErrCodeReplicationNotFound`. -/
def errCodeReplicationNotFound : String := "ReplicationNotFound"

/-- `awstypes.ReplicationStatusEnabling`. -/
def replicationStatusEnabling : String := "ENABLING"

/-- `awstypes.ReplicationStatusEnabled`. -/
def replicationStatusEnabled : String := "ENABLED"

/-- `awstypes.ReplicationStatusDeleting`. -/
def replicationStatusDeleting : String := "DELETING"

/-! ## The EFS API oracle and the find helpers -/

/-- An `*efs.Client` as the program observes it at one instant: the answer of
the paginated `DescribeReplicationConfigurations` call.  `Except.ok` carries
the full sequence of pages the SDK paginator would deliver (a nil page is
`none`). -/
structure EFSConn where
  describeReplicationConfigurationsPages :
    DescribeReplicationConfigurationsInput →
      Except GoErr (List (Option DescribeReplicationConfigurationsOutput))

/-- `findReplicationConfigurations`: the page callback appends every non-nil
replication of every non-nil page, in order, continuing to the last page;
the coded not-found errors are mapped to a `retry.NotFoundError` carrying
the original error and the request. -/
def findReplicationConfigurations (conn : EFSConn)
    (input : DescribeReplicationConfigurationsInput) :
    Except GoErr (List (Option ReplicationConfigurationDescription)) :=
  match conn.describeReplicationConfigurationsPages input with
  | Except.error err =>
    if errCodeEquals (some err)
        [errCodeFileSystemNotFound, errCodeReplicationNotFound] then
      Except.error (GoErr.notFoundError err input)
    else
      Except.error err
  | Except.ok pages =>
    Except.ok (pages.foldl
      (fun output page =>
        match page with
        | none => output
        | some p => output ++ p.replications.filter (fun v => v.isSome))
      [])

/-- Modelled from the spec: `tfresource.AssertSinglePtrResult` (the
`internal/tfresource` package is part of this repository but not included
under `src/`): a single non-nil element is returned, an empty slice or nil
single element yields an empty-result error, more than one element yields a
too-many-results error. -/
def assertSinglePtrResult
    (a : List (Option ReplicationConfigurationDescription)) :
    Except GoErr ReplicationConfigurationDescription :=
  if a.length = 0 then
    Except.error (GoErr.emptyResult none)
  else if 1 < a.length then
    Except.error (GoErr.tooManyResults a.length)
  else
    match a.head? with
    | some (some x) => Except.ok x
    | _ => Except.error (GoErr.emptyResult none)

/-- `findReplicationConfiguration`. -/
def findReplicationConfiguration (conn : EFSConn)
    (input : DescribeReplicationConfigurationsInput) :
    Except GoErr ReplicationConfigurationDescription :=
  match findReplicationConfigurations conn input with
  | Except.error e => Except.error e
  | Except.ok output => assertSinglePtrResult output

/-- `FindReplicationConfigurationByID`.  The Go guard
`len(output.Destinations) == 0 || output.Destinations[0] == nil` is
translated with `List.get?`; the index is evaluated only when the length
is non-zero (Go `||` short-circuits), which `get?` renders harmless. -/
def FindReplicationConfigurationByID (conn : EFSConn) (id : String) :
    Except GoErr ReplicationConfigurationDescription :=
  let input : DescribeReplicationConfigurationsInput := ⟨some id⟩
  match findReplicationConfiguration conn input with
  | Except.error e => Except.error e
  | Except.ok output =>
    if output.destinations.length = 0 ∨ output.destinations.get? 0 = some none then
      Except.error (GoErr.emptyResult (some input))
    else
      Except.ok output

/-! ## Status refresh and the `retry.StateChangeConf` wait loop -/

/-- One answer of a `retry.StateRefreshFunc`: the `(interface{}, string,
error)` triple. -/
structure RefreshResult where
  result : Option ReplicationConfigurationDescription
  state : String
  err : Option GoErr
deriving DecidableEq, Repr

/-- `statusReplicationConfiguration`: a not-found lookup yields a nil result
with empty state and no error; any other lookup error is passed through; a
successful lookup yields the description with
`aws.ToString(output.Destinations[0].Status)` as the state.  The outer
`Option` models a Go panic of the unguarded `Destinations[0]` access:
`none` is an index-out-of-range or nil-pointer dereference. -/
def statusReplicationConfiguration (conn : EFSConn) (id : String) :
    Option RefreshResult :=
  match FindReplicationConfigurationByID conn id with
  | Except.error e =>
    if notFound e then
      some ⟨none, "", none⟩
    else
      some ⟨none, "", some e⟩
  | Except.ok output =>
    match output.destinations.get? 0 with
    | none => none
    | some none => none
    | some (some d) => some ⟨some output, d.status.getD "", none⟩

/-- Modelled third-party semantics (terraform-plugin-sdk
`helper/retry.StateChangeConf`): the inner loop over `conf.Target` of
`WaitForStateContext`.  Returns `(found, done, targetOccurence)`: whether
the current state matched some target, whether `ContinuousTargetOccurence`
was reached during the scan, and the occurrence counter afterwards. -/
def targetScan (currentState : String) (cto : Nat) :
    List String → Nat → Bool × Bool × Nat
  | [], occ => (false, false, occ)
  | t :: ts, occ =>
    if currentState = t then
      if cto = occ + 1 then
        (true, true, occ + 1)
      else
        let r := targetScan currentState cto ts (occ + 1)
        (true, r.2.1, r.2.2)
    else
      targetScan currentState cto ts occ

/-- What a wait function returns: the `(outputRaw, err)` pair of
`WaitForStateContext` after the type assertion of the caller. -/
structure WaitOutcome where
  result : Option ReplicationConfigurationDescription
  error : Option GoErr
deriving DecidableEq, Repr

/-- Modelled third-party semantics (terraform-plugin-sdk
`helper/retry.StateChangeConf.WaitForStateContext`): the refresh loop, with
the sequence of refresh answers made explicit and the timeout rendered as
exhaustion of that sequence.  `occ` and `nft` are the `targetOccurence` and
`notfoundTick` counters.  A nil result with an empty target list counts
toward `cto` consecutive target occurrences; a nil result otherwise ticks
the not-found counter against `nfc` (`NotFoundChecks`); a non-nil result is
scanned against the target list, then the pending list (a pending match
resets `targetOccurence`), and a state found in neither, with a non-empty
pending list, is an unexpected-state error. -/
def waitForStateContext (pending target : List String) (cto nfc : Nat)
    (occ nft : Nat) (rs : List RefreshResult) : WaitOutcome :=
  match rs with
  | [] => ⟨none, some GoErr.timeoutError⟩
  | r :: rest =>
    match r.err with
    | some e => ⟨r.result, some e⟩
    | none =>
      if r.result.isNone && target.isEmpty then
        if cto = occ + 1 then
          ⟨r.result, none⟩
        else
          waitForStateContext pending target cto nfc (occ + 1) nft rest
      else if r.result.isNone then
        if nfc < nft + 1 then
          ⟨r.result, some GoErr.waitNotFoundError⟩
        else
          waitForStateContext pending target cto nfc occ (nft + 1) rest
      else
        match targetScan r.state cto target occ with
        | (_, true, _) => ⟨r.result, none⟩
        | (ftgt, false, occ2) =>
          let fpend := pending.contains r.state
          let occ3 := if fpend then 0 else occ2
          if !(ftgt || fpend) && !pending.isEmpty then
            ⟨r.result, some (GoErr.unexpectedState r.state)⟩
          else
            waitForStateContext pending target cto nfc occ3 0 rest

/-- The body of `waitReplicationConfigurationCreated` applied to an explicit
sequence of refresh answers: `Pending` is `[ENABLING]`, `Target` is
`[ENABLED]`, and `ContinuousTargetOccurence`/`NotFoundChecks` take the
`WaitForStateContext` defaults 1 and 20. -/
def waitReplicationConfigurationCreatedLoop (rs : List RefreshResult) :
    WaitOutcome :=
  waitForStateContext [replicationStatusEnabling] [replicationStatusEnabled]
    1 20 0 0 rs

/-- `waitReplicationConfigurationCreated`: the refresh function is
`statusReplicationConfiguration`; the API answer at each poll is the next
element of `conns`, and its exhaustion is the timeout.  `none` is a panic
inside a refresh (shown impossible elsewhere). -/
def waitReplicationConfigurationCreated (conns : List EFSConn) (id : String) :
    Option WaitOutcome :=
  (conns.mapM (fun c => statusReplicationConfiguration c id)).map
    waitReplicationConfigurationCreatedLoop

/-- The body of `waitReplicationConfigurationDeleted` applied to an explicit
sequence of refresh answers: `Pending` is `[DELETING]`, `Target` is empty,
`ContinuousTargetOccurence` is 2, `NotFoundChecks` defaults to 20. -/
def waitReplicationConfigurationDeletedLoop (rs : List RefreshResult) :
    WaitOutcome :=
  waitForStateContext [replicationStatusDeleting] [] 2 20 0 0 rs

/-- `waitReplicationConfigurationDeleted`, with the API answers per poll
made explicit as for the created wait. -/
def waitReplicationConfigurationDeleted (conns : List EFSConn) (id : String) :
    Option WaitOutcome :=
  (conns.mapM (fun c => statusReplicationConfiguration c id)).map
    waitReplicationConfigurationDeletedLoop

/-! ## The Terraform schema layer -/

/-- One element of the `destination` block as the schema stores it: every
attribute is a string, absence rendered as `""` (the schema zero value). -/
structure DestinationTF where
  availabilityZoneName : String
  fileSystemId : String
  kmsKeyId : String
  region : String
  status : String
deriving DecidableEq, Repr

/-- The `*schema.ResourceData` of this resource: the ID and the attributes
of the schema.  `destination` is the raw `[]interface{}` of the block, an
element being `none` when it is not a map (a nil entry). -/
structure ResourceData where
  id : String
  isNewResource : Bool
  creationTime : String
  destination : List (Option DestinationTF)
  originalSourceFileSystemArn : String
  sourceFileSystemArn : String
  sourceFileSystemId : String
  sourceFileSystemRegion : String
deriving DecidableEq, Repr

/-- An error diagnostic as appended by `sdkdiag.AppendErrorf` /
`sdkdiag.AppendFromErr`; only the error kind and a summary tag are kept. -/
inductive Diag where
  | error (summary : String)
deriving DecidableEq, Repr

/-- `expandDestinationToCreate`: a nil map yields nil; otherwise each
non-empty string attribute is copied into the API object. -/
def expandDestinationToCreate (tfMap : Option DestinationTF) :
    Option DestinationToCreate :=
  match tfMap with
  | none => none
  | some m =>
    some
      { availabilityZoneName :=
          if m.availabilityZoneName ≠ "" then some m.availabilityZoneName
          else none
        kmsKeyId := if m.kmsKeyId ≠ "" then some m.kmsKeyId else none
        region := if m.region ≠ "" then some m.region else none
        fileSystemId :=
          if m.fileSystemId ≠ "" then some m.fileSystemId else none }

/-- `expandDestinationsToCreate`: skips entries that are not maps or expand
to nil. -/
def expandDestinationsToCreate (tfList : List (Option DestinationTF)) :
    List DestinationToCreate :=
  if tfList.isEmpty then []
  else tfList.filterMap expandDestinationToCreate

/-- `aws.TimeValue(t).String()`: a nil time pointer renders as the zero
time. -/
def timeValueString (t : Option String) : String :=
  t.getD "0001-01-01 00:00:00 +0000 UTC"

/-- `flattenDestination` on a non-nil `Destination`: the map holds the
dereferenced string fields (an absent field rendered `""`);
`availability_zone_name` and `kms_key_id` are not returned by the Read
API. -/
def flattenDestination (apiObject : Destination) : DestinationTF :=
  { availabilityZoneName := ""
    fileSystemId := apiObject.fileSystemId.getD ""
    kmsKeyId := ""
    region := apiObject.region.getD ""
    status := apiObject.status.getD "" }

/-- `flattenDestinations`: skips nil elements. -/
def flattenDestinations (apiObjects : List (Option Destination)) :
    List DestinationTF :=
  apiObjects.filterMap (fun o => o.map flattenDestination)

/-- `resourceReplicationConfigurationRead`.  Result `none` models a panic
in the `copy(0, ...)` overlay (nil map element or empty list indexing);
otherwise the new `ResourceData` and the diagnostics are returned.  A
not-found lookup on a resource that is not new clears the ID and returns no
diagnostics; any other lookup error appends an error diagnostic and leaves
the data unchanged. -/
def resourceReplicationConfigurationRead (conn : EFSConn)
    (d : ResourceData) : Option (ResourceData × List Diag) :=
  match FindReplicationConfigurationByID conn d.id with
  | Except.error e =>
    if !d.isNewResource && notFound e then
      some ({ d with id := "" }, [])
    else
      some (d, [Diag.error "reading EFS Replication Configuration"])
  | Except.ok replication =>
    let destinations := flattenDestinations replication.destinations
    let overlaid : Option (List DestinationTF) :=
      if d.destination.isEmpty then
        some destinations
      else
        match d.destination.get? 0, destinations.get? 0 with
        | some (some old0), some fl0 =>
          some (destinations.set 0
            { fl0 with
                availabilityZoneName := old0.availabilityZoneName
                kmsKeyId := old0.kmsKeyId })
        | _, _ => none
    match overlaid with
    | none => none
    | some dests =>
      some
        ({ d with
            creationTime := timeValueString replication.creationTime
            destination := dests.map some
            originalSourceFileSystemArn :=
              replication.originalSourceFileSystemArn.getD ""
            sourceFileSystemArn := replication.sourceFileSystemArn.getD ""
            sourceFileSystemId := replication.sourceFileSystemId.getD ""
            sourceFileSystemRegion :=
              replication.sourceFileSystemRegion.getD "" }, [])

/-! ## Create -/

/-- The side effects of `resourceReplicationConfigurationCreate`, in
order: the `CreateReplicationConfiguration` API call with its request, the
wait for creation, and the nested read, each keyed by the resource ID in
use at that point. -/
inductive CreateEvent where
  | callCreate (input : CreateReplicationConfigurationInput)
  | waitCreated (id : String)
  | readResource (id : String)
deriving DecidableEq, Repr

/-- What `resourceReplicationConfigurationCreate` leaves behind: the final
`ResourceData`, the diagnostics, and the ordered event log. -/
structure CreateOutcome where
  d : ResourceData
  diags : List Diag
  events : List CreateEvent
deriving DecidableEq, Repr

/-- The `meta.(*conns.AWSClient).EFSClient(ctx)` connection as the create
path uses it: the answer of the `CreateReplicationConfiguration` call, the
per-poll API answers consumed by the creation wait, and the API answer at
the time of the nested read. -/
structure AWSClient where
  createReplicationConfiguration :
    CreateReplicationConfigurationInput → Option GoErr
  pollConns : List EFSConn
  readConn : EFSConn

/-- `resourceReplicationConfigurationCreate`: builds the request from the
schema (`source_file_system_id`, and the expanded `destination` list when
the block is non-empty), calls the API, and on failure returns the error
diagnostic with the `ResourceData` untouched; on success sets the ID to the
source file system ID, waits for creation, and finally reads.  `none`
models a panic inside the wait or the read. -/
def resourceReplicationConfigurationCreate (client : AWSClient)
    (d : ResourceData) : Option CreateOutcome :=
  let fsID := d.sourceFileSystemId
  let input : CreateReplicationConfigurationInput :=
    { sourceFileSystemId := some fsID
      destinations :=
        if !d.destination.isEmpty then expandDestinationsToCreate d.destination
        else [] }
  match client.createReplicationConfiguration input with
  | some _ =>
    some ⟨d, [Diag.error "creating EFS Replication Configuration"],
      [CreateEvent.callCreate input]⟩
  | none =>
    let d1 := { d with id := fsID }
    match waitReplicationConfigurationCreated client.pollConns d1.id with
    | none => none
    | some outcome =>
      match outcome.error with
      | some _ =>
        some ⟨d1, [Diag.error "waiting for EFS Replication Configuration create"],
          [CreateEvent.callCreate input, CreateEvent.waitCreated d1.id]⟩
      | none =>
        match resourceReplicationConfigurationRead client.readConn d1 with
        | none => none
        | some (d2, diags) =>
          some ⟨d2, diags,
            [CreateEvent.callCreate input, CreateEvent.waitCreated d1.id,
             CreateEvent.readResource d1.id]⟩

/-! ## Delete -/

/-- A regional `*efs.Client` as the delete path uses it: the answer of the
`DeleteReplicationConfiguration` call, and the per-poll API answers consumed
by the deletion wait. -/
structure EFSRegionClient where
  deleteErr : Option GoErr
  pollConns : List EFSConn

/-- `deleteReplicationConfiguration`: an API error coded
`FileSystemNotFound` or `ReplicationNotFound` is success without waiting;
any other API error is returned wrapped; on a nil error the deletion wait
runs and its error, if any, is returned wrapped.  Outer `none` models a
panic inside the wait; the inner option is the Go `error` result. -/
def deleteReplicationConfiguration (conn : EFSRegionClient)
    (fsID : String) : Option (Option GoErr) :=
  if errCodeEquals conn.deleteErr
      [errCodeFileSystemNotFound, errCodeReplicationNotFound] then
    some none
  else
    match conn.deleteErr with
    | some e =>
      some (some (GoErr.wrapped "deleting EFS Replication Configuration" e))
    | none =>
      match waitReplicationConfigurationDeleted conn.pollConns fsID with
      | none => none
      | some outcome =>
        match outcome.error with
        | some e =>
          some (some (GoErr.wrapped
            "waiting for EFS Replication Configuration delete" e))
        | none => some none

/-- One `DeleteReplicationConfiguration` attempt of the resource delete:
through the destination-Region client or through the source-Region
client. -/
inductive DeleteAttempt where
  | destinationRegion (region : String)
  | sourceRegion
deriving DecidableEq, Repr

/-- What `resourceReplicationConfigurationDelete` leaves behind: the
diagnostics and the ordered list of deletion attempts. -/
structure DeleteOutcome where
  diags : List Diag
  attempts : List DeleteAttempt
deriving DecidableEq, Repr

/-- The `meta.(*conns.AWSClient)` as the delete path uses it: the
source-Region client and `EFSConnForRegion` for each destination Region. -/
structure DeleteMeta where
  sourceClient : EFSRegionClient
  regionClient : String → EFSRegionClient

/-- `resourceReplicationConfigurationDelete`: deletes first through a
client for the destination file system's Region, then through the
source-Region client; the first failure stops with an error diagnostic.
`none` models the panic of the unguarded `[0]` on the expanded destination
list, or a panic inside a wait. -/
def resourceReplicationConfigurationDelete (meta : DeleteMeta)
    (d : ResourceData) : Option DeleteOutcome :=
  match (expandDestinationsToCreate d.destination).get? 0 with
  | none => none
  | some destination =>
    let region := destination.region.getD ""
    match deleteReplicationConfiguration (meta.regionClient region) d.id with
    | none => none
    | some (some _) =>
      some ⟨[Diag.error "deleting EFS Replication Configuration"],
        [DeleteAttempt.destinationRegion region]⟩
    | some none =>
      match deleteReplicationConfiguration meta.sourceClient d.id with
      | none => none
      | some (some _) =>
        some ⟨[Diag.error "deleting EFS Replication Configuration"],
          [DeleteAttempt.destinationRegion region, DeleteAttempt.sourceRegion]⟩
      | some none =>
        some ⟨[],
          [DeleteAttempt.destinationRegion region, DeleteAttempt.sourceRegion]⟩

/-! ## Service packages (mediaconvert, sfn) -/

/-- `types.ServicePackageResourceTags`. -/
structure ServicePackageResourceTags where
  identifierAttribute : String
deriving DecidableEq, Repr

/-- `types.ServicePackageFrameworkDataSource`; the factory is identified by
the name of the Go factory function. -/
structure ServicePackageFrameworkDataSource where
  factory : String
deriving DecidableEq, Repr

/-- `types.ServicePackageFrameworkResource`. -/
structure ServicePackageFrameworkResource where
  factory : String
deriving DecidableEq, Repr

/-- `types.ServicePackageSDKDataSource`; unset optional fields are `""` /
`none` (the Go zero values). -/
structure ServicePackageSDKDataSource where
  factory : String
  typeName : String
  name : String
  tags : Option ServicePackageResourceTags
deriving DecidableEq, Repr

/-- `types.ServicePackageSDKResource`. -/
structure ServicePackageSDKResource where
  factory : String
  typeName : String
  name : String
  tags : Option ServicePackageResourceTags
deriving DecidableEq, Repr

/-- Modelled from the spec: `names.AttrARN` (the `names` package is part of
this repository but not included under `src/`); the ARN attribute key. -/
def attrARN : String := "arn"

namespace MediaConvert

/-- mediaconvert `servicePackage.FrameworkDataSources`. -/
def FrameworkDataSources : List ServicePackageFrameworkDataSource := []

/-- mediaconvert `servicePackage.FrameworkResources`. -/
def FrameworkResources : List ServicePackageFrameworkResource := []

/-- mediaconvert `servicePackage.SDKDataSources`. -/
def SDKDataSources : List ServicePackageSDKDataSource :=
  [{ factory := "dataSourceQueue"
     typeName := "aws_media_convert_queue"
     name := "Queue"
     tags := some { identifierAttribute := attrARN } }]

/-- mediaconvert `servicePackage.SDKResources`. -/
def SDKResources : List ServicePackageSDKResource :=
  [{ factory := "resourceQueue"
     typeName := "aws_media_convert_queue"
     name := "Queue"
     tags := some { identifierAttribute := attrARN } }]

end MediaConvert

/-- `aws.FIPSEndpointState` (v2) / `endpoints.FIPSEndpointState` (v1). -/
inductive FIPSEndpointState where
  | unset
  | enabled
  | disabled
deriving DecidableEq, Repr

/-- The fields of the mediaconvert SDK v2 `Options` this code touches. -/
structure MediaConvertOptions where
  baseEndpoint : Option String
  useFIPSEndpoint : FIPSEndpointState
deriving DecidableEq, Repr

/-- mediaconvert `servicePackage.NewClient`: the effect of the
`NewFromConfig` functional option on the options derived from the AWS
config, given the configured endpoint string.  A non-empty endpoint
overrides `BaseEndpoint` and, when `UseFIPSEndpoint` was enabled, forces it
to disabled; an empty endpoint leaves the options as they are. -/
def mediaConvertNewClient (o : MediaConvertOptions) (endpoint : String) :
    MediaConvertOptions :=
  if endpoint ≠ "" then
    let o1 := { o with baseEndpoint := some endpoint }
    if o1.useFIPSEndpoint = FIPSEndpointState.enabled then
      { o1 with useFIPSEndpoint := FIPSEndpointState.disabled }
    else
      o1
  else
    o

/-- The fields of an SDK v1 `aws.Config` / session config this code
touches.  A zero `aws.Config{}` is `⟨none, unset⟩`. -/
structure AWSConfigV1 where
  endpoint : Option String
  useFIPSEndpoint : FIPSEndpointState
deriving DecidableEq, Repr

/-- Modelled third-party semantics (aws-sdk-go v1 `session.Copy` /
`Config.MergeIn`): fields of the override config that are set (non-nil
pointer, non-`unset` state) replace those of the session config. -/
def mergeConfigV1 (sess cfg : AWSConfigV1) : AWSConfigV1 :=
  { endpoint := cfg.endpoint.orElse (fun _ => sess.endpoint)
    useFIPSEndpoint :=
      if cfg.useFIPSEndpoint = FIPSEndpointState.unset then
        sess.useFIPSEndpoint
      else
        cfg.useFIPSEndpoint }

/-- sfn `servicePackage.NewConn`: builds a zero override config; a
non-empty configured endpoint sets `cfg.Endpoint` and, when the session had
`UseFIPSEndpoint` enabled, sets `cfg.UseFIPSEndpoint` to disabled; the
client is built from the session copied with that override. -/
def sfnNewConn (sess : AWSConfigV1) (endpoint : String) : AWSConfigV1 :=
  let cfg : AWSConfigV1 := ⟨none, FIPSEndpointState.unset⟩
  let cfg :=
    if endpoint ≠ "" then
      let cfg1 := { cfg with endpoint := some endpoint }
      if sess.useFIPSEndpoint = FIPSEndpointState.enabled then
        { cfg1 with useFIPSEndpoint := FIPSEndpointState.disabled }
      else
        cfg1
    else
      cfg
  mergeConfigV1 sess cfg

/-! ## Concrete instances used by the witnesses -/

/-- A destination with a given status. -/
def demoDestination (status : String) : Destination :=
  ⟨some "fs-dst", some "us-west-2", some status⟩

/-- A replication configuration description whose single destination has
the given status. -/
def demoDescription (status : String) : ReplicationConfigurationDescription :=
  ⟨some "2023-01-01 00:00:00 +0000 UTC", [some (demoDestination status)],
   some "arn:original", some "arn:source", some "fs-src", some "us-east-1"⟩

/-- A connection whose describe call finds exactly the given description. -/
def demoConnWith (r : ReplicationConfigurationDescription) : EFSConn :=
  ⟨fun _ => Except.ok [some ⟨[some r]⟩]⟩

/-- A connection whose describe call fails with `FileSystemNotFound`. -/
def demoConnNotFound : EFSConn :=
  ⟨fun _ => Except.error (GoErr.api "FileSystemNotFound")⟩

/-- A connection whose describe call fails with an unrelated API error. -/
def demoConnBroken : EFSConn :=
  ⟨fun _ => Except.error (GoErr.api "AccessDenied")⟩

/-- The refresh answer observed through `demoConnWith (demoDescription s)`. -/
def demoRefresh (s : String) : RefreshResult :=
  ⟨some (demoDescription s), s, none⟩

/-- The refresh answer observed through `demoConnNotFound`. -/
def demoRefreshAbsent : RefreshResult := ⟨none, "", none⟩

/-- A `ResourceData` as it stands before create: no ID yet, one destination
block naming only the Region. -/
def demoDataNew : ResourceData :=
  ⟨"", true, "", [some ⟨"", "", "", "us-west-2", ""⟩], "", "", "fs-src", ""⟩

/-- A `ResourceData` of an existing (not newly created) resource. -/
def demoDataExisting : ResourceData :=
  ⟨"fs-src", false, "", [some ⟨"", "fs-dst", "", "us-west-2", ""⟩],
   "", "", "fs-src", ""⟩

/-- A create-path client whose `CreateReplicationConfiguration` call
fails. -/
def demoClientCreateFails : AWSClient :=
  ⟨fun _ => some (GoErr.api "AccessDenied"), [], demoConnNotFound⟩

/-- The request `resourceReplicationConfigurationCreate` builds from
`demoDataNew`. -/
def demoCreateInput : CreateReplicationConfigurationInput :=
  ⟨some "fs-src", [⟨none, none, none, some "us-west-2"⟩]⟩

/-- The outcome of the failing demo create. -/
def demoCreateFailOutcome : CreateOutcome :=
  ⟨demoDataNew, [Diag.error "creating EFS Replication Configuration"],
   [CreateEvent.callCreate demoCreateInput]⟩

/-- A regional client whose delete call fails with an unrelated error. -/
def demoRegionClientFails : EFSRegionClient :=
  ⟨some (GoErr.api "AccessDenied"), []⟩

/-- A regional client whose delete call reports `ReplicationNotFound`
(success without waiting). -/
def demoRegionClientGone : EFSRegionClient :=
  ⟨some (GoErr.api "ReplicationNotFound"), []⟩

/-- Delete metadata whose destination-Region client fails. -/
def demoDeleteMetaFails : DeleteMeta :=
  ⟨demoRegionClientGone, fun _ => demoRegionClientFails⟩

/-- Delete metadata whose deletions all succeed. -/
def demoDeleteMetaOk : DeleteMeta :=
  ⟨demoRegionClientGone, fun _ => demoRegionClientGone⟩

/-! ## Theorems -/

/-- C6: The mediaconvert service package enumerates exactly one SDK data
source and exactly one SDK resource, both with TypeName
"aws_media_convert_queue", Name "Queue", and an ARN-based tag identifier
attribute, and returns empty lists of framework data sources and framework
resources. -/
theorem mediaConvertServicePackage_registrations :
    MediaConvert.SDKDataSources.length = 1 ∧
    MediaConvert.SDKResources.length = 1 ∧
    (MediaConvert.SDKDataSources.map (fun ds => ds.typeName) =
      ["aws_media_convert_queue"]) ∧
    (MediaConvert.SDKDataSources.map (fun ds => ds.name) = ["Queue"]) ∧
    (MediaConvert.SDKDataSources.map (fun ds => ds.tags) =
      [some ⟨attrARN⟩]) ∧
    (MediaConvert.SDKResources.map (fun r => r.typeName) =
      ["aws_media_convert_queue"]) ∧
    (MediaConvert.SDKResources.map (fun r => r.name) = ["Queue"]) ∧
    (MediaConvert.SDKResources.map (fun r => r.tags) = [some ⟨attrARN⟩]) ∧
    MediaConvert.FrameworkDataSources = [] ∧
    MediaConvert.FrameworkResources = [] := by
  exact ⟨rfl, rfl, rfl, rfl, rfl, rfl, rfl, rfl, rfl, rfl⟩

/-- C7: For every client constructed by mediaconvert `NewClient` or sfn
`NewConn`: a non-empty configured endpoint overrides the client endpoint
and forces an enabled `UseFIPSEndpoint` to disabled (leaving a non-enabled
setting alone); an empty endpoint modifies neither. -/
theorem serviceClient_endpointOverride_spec (o : MediaConvertOptions)
    (sess : AWSConfigV1) (endpoint : String) :
    (endpoint ≠ "" →
      (mediaConvertNewClient o endpoint).baseEndpoint = some endpoint ∧
      (o.useFIPSEndpoint = FIPSEndpointState.enabled →
        (mediaConvertNewClient o endpoint).useFIPSEndpoint =
          FIPSEndpointState.disabled) ∧
      (o.useFIPSEndpoint ≠ FIPSEndpointState.enabled →
        (mediaConvertNewClient o endpoint).useFIPSEndpoint =
          o.useFIPSEndpoint) ∧
      (sfnNewConn sess endpoint).endpoint = some endpoint ∧
      (sess.useFIPSEndpoint = FIPSEndpointState.enabled →
        (sfnNewConn sess endpoint).useFIPSEndpoint =
          FIPSEndpointState.disabled) ∧
      (sess.useFIPSEndpoint ≠ FIPSEndpointState.enabled →
        (sfnNewConn sess endpoint).useFIPSEndpoint =
          sess.useFIPSEndpoint)) ∧
    (endpoint = "" →
      mediaConvertNewClient o endpoint = o ∧ sfnNewConn sess endpoint = sess) := by
  constructor
  · intro h
    refine ⟨?_, ?_, ?_, ?_, ?_, ?_⟩
    · simp [mediaConvertNewClient, h]
      split <;> rfl
    · intro hf
      simp [mediaConvertNewClient, h, hf]
    · intro hf
      simp [mediaConvertNewClient, h]
      split
      · rename_i hc
        exact absurd hc hf
      · rfl
    · simp [sfnNewConn, mergeConfigV1, h]
      split <;> rfl
    · intro hf
      simp [sfnNewConn, mergeConfigV1, h, hf]
    · intro hf
      rcases hfe : sess.useFIPSEndpoint with _ | _ | _
      · simp [sfnNewConn, mergeConfigV1, h, hfe]
      · exact absurd hfe hf
      · simp [sfnNewConn, mergeConfigV1, h, hfe]
  · intro h
    subst h
    constructor
    · simp [mediaConvertNewClient]
    · simp [sfnNewConn, mergeConfigV1]

/-- C7 witness: the theorem applied at a non-empty endpoint with an
enabled FIPS setting, and at an empty endpoint. -/
theorem serviceClient_endpointOverride_witness :
    (mediaConvertNewClient ⟨none, FIPSEndpointState.enabled⟩ "https://ep").baseEndpoint
        = some "https://ep" ∧
    (mediaConvertNewClient ⟨none, FIPSEndpointState.enabled⟩ "https://ep").useFIPSEndpoint
        = FIPSEndpointState.disabled ∧
    (sfnNewConn ⟨some "s", FIPSEndpointState.enabled⟩ "https://ep").endpoint
        = some "https://ep" ∧
    (sfnNewConn ⟨some "s", FIPSEndpointState.enabled⟩ "https://ep").useFIPSEndpoint
        = FIPSEndpointState.disabled ∧
    mediaConvertNewClient ⟨none, FIPSEndpointState.enabled⟩ "" =
      ⟨none, FIPSEndpointState.enabled⟩ ∧
    sfnNewConn ⟨some "s", FIPSEndpointState.enabled⟩ "" =
      ⟨some "s", FIPSEndpointState.enabled⟩ := by
  have h1 := (serviceClient_endpointOverride_spec ⟨none, FIPSEndpointState.enabled⟩
    ⟨some "s", FIPSEndpointState.enabled⟩ "https://ep").1 (by decide)
  have h2 := (serviceClient_endpointOverride_spec ⟨none, FIPSEndpointState.enabled⟩
    ⟨some "s", FIPSEndpointState.enabled⟩ "").2 rfl
  exact ⟨h1.1, h1.2.1 rfl, h1.2.2.2.1, h1.2.2.2.2.1 rfl, h2.1, h2.2⟩

/-- C4: `deleteReplicationConfiguration` returns success (nil error,
without waiting — for every possible sequence of poll answers the result is
the same immediate success) whenever the delete API call fails with code
`FileSystemNotFound` or `ReplicationNotFound`; any other API error is
returned wrapped. -/
theorem deleteReplicationConfiguration_notFound_spec (deleteErr : Option GoErr)
    (pollConns : List EFSConn) (fsID : String) :
    (errCodeEquals deleteErr
        [errCodeFileSystemNotFound, errCodeReplicationNotFound] = true →
      deleteReplicationConfiguration ⟨deleteErr, pollConns⟩ fsID = some none) ∧
    (∀ e, deleteErr = some e →
      errCodeEquals deleteErr
        [errCodeFileSystemNotFound, errCodeReplicationNotFound] = false →
      deleteReplicationConfiguration ⟨deleteErr, pollConns⟩ fsID =
        some (some (GoErr.wrapped "deleting EFS Replication Configuration" e))) := by
  constructor
  · intro h
    simp [deleteReplicationConfiguration, h]
  · intro e he h
    subst he
    simp [deleteReplicationConfiguration, h]

/-- C4 witness: a `FileSystemNotFound`-coded delete error is success for an
arbitrary poll-answer list, and an uncoded error comes back wrapped. -/
theorem deleteReplicationConfiguration_notFound_witness :
    deleteReplicationConfiguration
        ⟨some (GoErr.api "FileSystemNotFound"), []⟩ "fs-1" = some none ∧
    deleteReplicationConfiguration
        ⟨some (GoErr.api "AccessDenied"), []⟩ "fs-1" =
      some (some (GoErr.wrapped "deleting EFS Replication Configuration"
        (GoErr.api "AccessDenied"))) :=
  ⟨(deleteReplicationConfiguration_notFound_spec
      (some (GoErr.api "FileSystemNotFound")) [] "fs-1").1 (by decide),
   (deleteReplicationConfiguration_notFound_spec
      (some (GoErr.api "AccessDenied")) [] "fs-1").2
      (GoErr.api "AccessDenied") rfl (by decide)⟩

/-- The page-accumulating fold of `findReplicationConfigurations` equals
the flattening, in page order, of the non-nil replications of each non-nil
page. -/
theorem findReplicationConfigurations_foldl_eq
    (pages : List (Option DescribeReplicationConfigurationsOutput))
    (acc : List (Option ReplicationConfigurationDescription)) :
    pages.foldl
      (fun output page =>
        match page with
        | none => output
        | some p => output ++ p.replications.filter (fun v => v.isSome))
      acc =
    acc ++ (pages.map
      (fun page =>
        match page with
        | none => []
        | some p => p.replications.filter (fun v => v.isSome))).flatten := by
  induction pages generalizing acc with
  | nil => simp
  | cons page rest ih =>
    cases page with
    | none => simp [List.foldl_cons, ih]
    | some p => simp [List.foldl_cons, ih, List.append_assoc]

/-- C5: `findReplicationConfigurations` returns exactly the concatenation,
in page order, of every non-nil replication description of every non-nil
page of the paginated results, and maps `FileSystemNotFound` /
`ReplicationNotFound` API errors to a `retry.NotFoundError` carrying the
original error and the request (any other error passes through). -/
theorem findReplicationConfigurations_spec (conn : EFSConn)
    (input : DescribeReplicationConfigurationsInput) :
    (∀ pages, conn.describeReplicationConfigurationsPages input =
        Except.ok pages →
      findReplicationConfigurations conn input =
        Except.ok ((pages.map
          (fun page =>
            match page with
            | none => []
            | some p => p.replications.filter (fun v => v.isSome))).flatten)) ∧
    (∀ e, conn.describeReplicationConfigurationsPages input =
        Except.error e →
      (errCodeEquals (some e)
          [errCodeFileSystemNotFound, errCodeReplicationNotFound] = true →
        findReplicationConfigurations conn input =
          Except.error (GoErr.notFoundError e input)) ∧
      (errCodeEquals (some e)
          [errCodeFileSystemNotFound, errCodeReplicationNotFound] = false →
        findReplicationConfigurations conn input = Except.error e)) := by
  constructor
  · intro pages hpages
    unfold findReplicationConfigurations
    rw [hpages]
    dsimp only
    rw [findReplicationConfigurations_foldl_eq]
    simp
  · intro e he
    constructor
    · intro hc
      unfold findReplicationConfigurations
      rw [he]
      simp [hc]
    · intro hc
      unfold findReplicationConfigurations
      rw [he]
      simp [hc]

/-- C5 witness: a two-page result with nil pages and nil elements collects
the two non-nil descriptions in page order, and a `ReplicationNotFound`
error becomes a `retry.NotFoundError` carrying error and request. -/
theorem findReplicationConfigurations_witness :
    findReplicationConfigurations
        ⟨fun _ => Except.ok
          [none,
           some ⟨[some ⟨none, [], none, none, some "fs-a", none⟩, none]⟩,
           some ⟨[some ⟨none, [], none, none, some "fs-b", none⟩]⟩]⟩
        ⟨some "fs-1"⟩ =
      Except.ok
        [some ⟨none, [], none, none, some "fs-a", none⟩,
         some ⟨none, [], none, none, some "fs-b", none⟩] ∧
    findReplicationConfigurations
        ⟨fun _ => Except.error (GoErr.api "ReplicationNotFound")⟩
        ⟨some "fs-1"⟩ =
      Except.error (GoErr.notFoundError (GoErr.api "ReplicationNotFound")
        ⟨some "fs-1"⟩) := by
  constructor
  · exact (findReplicationConfigurations_spec
      ⟨fun _ => Except.ok
        [none,
         some ⟨[some ⟨none, [], none, none, some "fs-a", none⟩, none]⟩,
         some ⟨[some ⟨none, [], none, none, some "fs-b", none⟩]⟩]⟩
      ⟨some "fs-1"⟩).1 _ rfl
  · exact ((findReplicationConfigurations_spec
      ⟨fun _ => Except.error (GoErr.api "ReplicationNotFound")⟩
      ⟨some "fs-1"⟩).2 (GoErr.api "ReplicationNotFound") rfl).1 (by decide)

/-- C3: On a read of a resource that is not newly created, a not-found
lookup clears the resource ID (removing it from state) and returns no
error diagnostics; any other lookup error produces an error diagnostic and
leaves the `ResourceData`, its ID included, unchanged. -/
theorem resourceReplicationConfigurationRead_notFound_spec (conn : EFSConn)
    (d : ResourceData) (e : GoErr)
    (hfind : FindReplicationConfigurationByID conn d.id = Except.error e) :
    (d.isNewResource = false → notFound e = true →
      resourceReplicationConfigurationRead conn d =
        some ({ d with id := "" }, [])) ∧
    (notFound e = false →
      resourceReplicationConfigurationRead conn d =
        some (d, [Diag.error "reading EFS Replication Configuration"])) := by
  constructor
  · intro hnew hnf
    unfold resourceReplicationConfigurationRead
    rw [hfind]
    simp [hnew, hnf]
  · intro hnf
    unfold resourceReplicationConfigurationRead
    rw [hfind]
    simp [hnf]

/-- C3 witness: a not-found lookup on an existing resource clears the ID
with no diagnostics; a different lookup error leaves the data unchanged
with an error diagnostic. -/
theorem resourceReplicationConfigurationRead_notFound_witness :
    resourceReplicationConfigurationRead demoConnNotFound demoDataExisting =
      some ({ demoDataExisting with id := "" }, []) ∧
    resourceReplicationConfigurationRead demoConnBroken demoDataExisting =
      some (demoDataExisting,
        [Diag.error "reading EFS Replication Configuration"]) :=
  ⟨(resourceReplicationConfigurationRead_notFound_spec demoConnNotFound
      demoDataExisting
      (GoErr.notFoundError (GoErr.api "FileSystemNotFound") ⟨some "fs-src"⟩)
      rfl).1 rfl rfl,
   (resourceReplicationConfigurationRead_notFound_spec demoConnBroken
      demoDataExisting (GoErr.api "AccessDenied") rfl).2 rfl⟩

/-- C8: `FindReplicationConfigurationByID` returns a configuration only
when its destination list is non-empty with a non-nil first element, so the
unguarded `Destinations[0]` accesses on a successful lookup — in
`statusReplicationConfiguration` and in the guard's own second disjunct —
are always in bounds: the status refresh never panics. -/
theorem FindReplicationConfigurationByID_guard_spec (conn : EFSConn)
    (id : String) :
    (∀ output, FindReplicationConfigurationByID conn id = Except.ok output →
      ∃ dest, output.destinations.get? 0 = some (some dest)) ∧
    (statusReplicationConfiguration conn id).isSome = true := by
  have h1 : ∀ output,
      FindReplicationConfigurationByID conn id = Except.ok output →
      ∃ dest, output.destinations.get? 0 = some (some dest) := by
    intro output hok
    unfold FindReplicationConfigurationByID at hok
    dsimp only at hok
    cases hfind : findReplicationConfiguration conn ⟨some id⟩ with
    | error e =>
      rw [hfind] at hok
      simp at hok
    | ok out =>
      rw [hfind] at hok
      dsimp only at hok
      by_cases hc : out.destinations.length = 0 ∨
          out.destinations.get? 0 = some none
      · rw [if_pos hc] at hok
        exact absurd hok (by simp)
      · rw [if_neg hc] at hok
        push_neg at hc
        obtain ⟨hlen, hget⟩ := hc
        have hout : out = output := by
          injection hok
        subst hout
        cases hdest : out.destinations with
        | nil => simp [hdest] at hlen
        | cons hd tl =>
          rw [hdest] at hget
          cases hd with
          | none => simp at hget
          | some dest => exact ⟨dest, by simp [hdest]⟩
  refine ⟨h1, ?_⟩
  unfold statusReplicationConfiguration
  cases hfind : FindReplicationConfigurationByID conn id with
  | error e =>
    dsimp only
    split <;> rfl
  | ok output =>
    obtain ⟨dest, hdest⟩ := h1 output hfind
    dsimp only
    rw [hdest]
    rfl

/-- C8 witness: a successful lookup delivers a non-nil first destination,
and the status refresh on that connection does not panic. -/
theorem FindReplicationConfigurationByID_guard_witness :
    (∃ dest, (demoDescription "ENABLED").destinations.get? 0 =
      some (some dest)) ∧
    (statusReplicationConfiguration (demoConnWith (demoDescription "ENABLED"))
      "fs-src").isSome = true :=
  ⟨(FindReplicationConfigurationByID_guard_spec
      (demoConnWith (demoDescription "ENABLED")) "fs-src").1
      (demoDescription "ENABLED") rfl,
   (FindReplicationConfigurationByID_guard_spec
      (demoConnWith (demoDescription "ENABLED")) "fs-src").2⟩

/-- C2: `resourceReplicationConfigurationCreate` builds the API request
from the schema (the source file system ID plus the expanded destination
list), calls `CreateReplicationConfiguration` first, and only on success
sets the resource ID to the source file system ID and then waits for
creation before reading; if the API call fails it returns an error
diagnostic with the resource ID still unset and never polls (the event log
holds only the create call). -/
theorem resourceReplicationConfigurationCreate_spec (client : AWSClient)
    (d : ResourceData) (o : CreateOutcome)
    (h : resourceReplicationConfigurationCreate client d = some o)
    (input : CreateReplicationConfigurationInput)
    (hinput : input =
      ⟨some d.sourceFileSystemId,
        if !d.destination.isEmpty then expandDestinationsToCreate d.destination
        else []⟩) :
    (∀ e, client.createReplicationConfiguration input = some e →
      o.d = d ∧
      o.diags = [Diag.error "creating EFS Replication Configuration"] ∧
      o.events = [CreateEvent.callCreate input]) ∧
    (client.createReplicationConfiguration input = none →
      ∃ w, waitReplicationConfigurationCreated client.pollConns
          d.sourceFileSystemId = some w ∧
        (∀ e, w.error = some e →
          o.d = { d with id := d.sourceFileSystemId } ∧
          o.diags =
            [Diag.error "waiting for EFS Replication Configuration create"] ∧
          o.events = [CreateEvent.callCreate input,
            CreateEvent.waitCreated d.sourceFileSystemId]) ∧
        (w.error = none →
          ∃ rd, resourceReplicationConfigurationRead client.readConn
              { d with id := d.sourceFileSystemId } = some rd ∧
            o.d = rd.1 ∧ o.diags = rd.2 ∧
            o.events = [CreateEvent.callCreate input,
              CreateEvent.waitCreated d.sourceFileSystemId,
              CreateEvent.readResource d.sourceFileSystemId])) := by
  subst hinput
  unfold resourceReplicationConfigurationCreate at h
  dsimp only at h
  constructor
  · intro e he
    rw [he] at h
    dsimp only at h
    have ho : CreateOutcome.mk d
        [Diag.error "creating EFS Replication Configuration"]
        [CreateEvent.callCreate
          ⟨some d.sourceFileSystemId,
            if !d.destination.isEmpty then
              expandDestinationsToCreate d.destination
            else []⟩] = o := by
      injection h
    rw [← ho]
    exact ⟨rfl, rfl, rfl⟩
  · intro he
    rw [he] at h
    dsimp only at h
    cases hwait : waitReplicationConfigurationCreated client.pollConns
        d.sourceFileSystemId with
    | none =>
      rw [hwait] at h
      simp at h
    | some w =>
      rw [hwait] at h
      dsimp only at h
      refine ⟨w, rfl, ?_, ?_⟩
      · intro e hw
        rw [hw] at h
        dsimp only at h
        have ho : CreateOutcome.mk { d with id := d.sourceFileSystemId }
            [Diag.error "waiting for EFS Replication Configuration create"]
            [CreateEvent.callCreate
              ⟨some d.sourceFileSystemId,
                if !d.destination.isEmpty then
                  expandDestinationsToCreate d.destination
                else []⟩,
              CreateEvent.waitCreated d.sourceFileSystemId] = o := by
          injection h
        rw [← ho]
        exact ⟨rfl, rfl, rfl⟩
      · intro hw
        rw [hw] at h
        dsimp only at h
        cases hread : resourceReplicationConfigurationRead client.readConn
            { d with id := d.sourceFileSystemId } with
        | none =>
          rw [hread] at h
          simp at h
        | some rd =>
          rw [hread] at h
          dsimp only at h
          refine ⟨rd, rfl, ?_⟩
          have ho : CreateOutcome.mk rd.1 rd.2
              [CreateEvent.callCreate
                ⟨some d.sourceFileSystemId,
                  if !d.destination.isEmpty then
                    expandDestinationsToCreate d.destination
                  else []⟩,
                CreateEvent.waitCreated d.sourceFileSystemId,
                CreateEvent.readResource d.sourceFileSystemId] = o := by
            injection h
          rw [← ho]
          exact ⟨rfl, rfl, rfl⟩

/-- C2 witness: a failing `CreateReplicationConfiguration` call leaves the
data (ID included) untouched, appends the create error diagnostic, and the
event log holds only the create call — no wait, no read. -/
theorem resourceReplicationConfigurationCreate_witness :
    demoCreateFailOutcome.d = demoDataNew ∧
    demoCreateFailOutcome.diags =
      [Diag.error "creating EFS Replication Configuration"] ∧
    demoCreateFailOutcome.events = [CreateEvent.callCreate demoCreateInput] :=
  (resourceReplicationConfigurationCreate_spec demoClientCreateFails
      demoDataNew demoCreateFailOutcome rfl demoCreateInput (by decide)).1
    (GoErr.api "AccessDenied") rfl

/-- C9: `resourceReplicationConfigurationDelete` always deletes first
through the client for the destination file system's Region; if that
deletion fails it stops with an error diagnostic and the source-Region
deletion is never attempted, and only on its success is the source-Region
deletion attempted as the second step. -/
theorem resourceReplicationConfigurationDelete_spec (meta : DeleteMeta)
    (d : ResourceData) (o : DeleteOutcome)
    (h : resourceReplicationConfigurationDelete meta d = some o) :
    ∃ destination,
      (expandDestinationsToCreate d.destination).get? 0 = some destination ∧
      ((∀ e, deleteReplicationConfiguration
            (meta.regionClient (destination.region.getD "")) d.id =
            some (some e) →
        o = ⟨[Diag.error "deleting EFS Replication Configuration"],
          [DeleteAttempt.destinationRegion (destination.region.getD "")]⟩) ∧
       (deleteReplicationConfiguration
            (meta.regionClient (destination.region.getD "")) d.id =
            some none →
        o.attempts = [DeleteAttempt.destinationRegion
          (destination.region.getD ""), DeleteAttempt.sourceRegion])) := by
  unfold resourceReplicationConfigurationDelete at h
  cases hd0 : (expandDestinationsToCreate d.destination).get? 0 with
  | none =>
    rw [hd0] at h
    simp at h
  | some destination =>
    rw [hd0] at h
    dsimp only at h
    refine ⟨destination, rfl, ?_, ?_⟩
    · intro e he
      rw [he] at h
      dsimp only at h
      have h' := h
      injection h' with h2
      exact h2.symm
    · intro he
      rw [he] at h
      dsimp only at h
      cases hs : deleteReplicationConfiguration meta.sourceClient d.id with
      | none =>
        rw [hs] at h
        simp at h
      | some r =>
        rw [hs] at h
        cases r with
        | none =>
          dsimp only at h
          injection h with h2
          rw [← h2]
        | some e2 =>
          dsimp only at h
          injection h with h2
          rw [← h2]

/-- C9 witness: a failing destination-Region deletion stops with the error
diagnostic and only that attempt; when it succeeds the source-Region
deletion follows as the second attempt. -/
theorem resourceReplicationConfigurationDelete_witness :
    DeleteOutcome.mk [Diag.error "deleting EFS Replication Configuration"]
        [DeleteAttempt.destinationRegion "us-west-2"] =
      ⟨[Diag.error "deleting EFS Replication Configuration"],
        [DeleteAttempt.destinationRegion "us-west-2"]⟩ ∧
    (DeleteOutcome.mk []
        [DeleteAttempt.destinationRegion "us-west-2",
         DeleteAttempt.sourceRegion]).attempts =
      [DeleteAttempt.destinationRegion "us-west-2",
       DeleteAttempt.sourceRegion] := by
  constructor
  · obtain ⟨dest, hdest, h1, _⟩ :=
      resourceReplicationConfigurationDelete_spec demoDeleteMetaFails
        demoDataExisting
        ⟨[Diag.error "deleting EFS Replication Configuration"],
          [DeleteAttempt.destinationRegion "us-west-2"]⟩ rfl
    have hd : dest = ⟨none, some "fs-dst", none, some "us-west-2"⟩ := by
      have : some dest =
          some (⟨none, some "fs-dst", none, some "us-west-2"⟩ :
            DestinationToCreate) := by
        rw [← hdest]
        rfl
      injection this
    subst hd
    exact h1 (GoErr.wrapped "deleting EFS Replication Configuration"
      (GoErr.api "AccessDenied")) rfl
  · obtain ⟨dest, hdest, _, h2⟩ :=
      resourceReplicationConfigurationDelete_spec demoDeleteMetaOk
        demoDataExisting
        ⟨[], [DeleteAttempt.destinationRegion "us-west-2",
          DeleteAttempt.sourceRegion]⟩ rfl
    have hd : dest = ⟨none, some "fs-dst", none, some "us-west-2"⟩ := by
      have : some dest =
          some (⟨none, some "fs-dst", none, some "us-west-2"⟩ :
            DestinationToCreate) := by
        rw [← hdest]
        rfl
      injection this
    subst hd
    exact h2 rfl

/-- A refresh error ends the wait loop with that error immediately. -/
theorem waitForStateContext_step_err (pending target : List String)
    (cto nfc occ nft : Nat) (res : Option ReplicationConfigurationDescription)
    (st : String) (e : GoErr) (rest : List RefreshResult) :
    waitForStateContext pending target cto nfc occ nft
      (⟨res, st, some e⟩ :: rest) = ⟨res, some e⟩ := rfl

/-- Created wait, one step on a healthy `ENABLING` poll: the loop
continues with both counters reset. -/
theorem createdLoop_step_enabling (v : ReplicationConfigurationDescription)
    (rest : List RefreshResult) (occ nft : Nat) :
    waitForStateContext [replicationStatusEnabling]
        [replicationStatusEnabled] 1 20 occ nft
        (⟨some v, replicationStatusEnabling, none⟩ :: rest) =
      waitForStateContext [replicationStatusEnabling]
        [replicationStatusEnabled] 1 20 0 0 rest := rfl

/-- Created wait, one step on a healthy `ENABLED` poll with occurrence
counter 0: the target is reached and the result returned. -/
theorem createdLoop_step_enabled (v : ReplicationConfigurationDescription)
    (rest : List RefreshResult) (nft : Nat) :
    waitForStateContext [replicationStatusEnabling]
        [replicationStatusEnabled] 1 20 0 nft
        (⟨some v, replicationStatusEnabled, none⟩ :: rest) =
      ⟨some v, none⟩ := rfl

/-- Created wait, one step on a healthy `ENABLED` poll with a positive
occurrence counter: the loop continues (unreachable from the initial
counters, proved for the induction). -/
theorem createdLoop_step_enabled_succ (v : ReplicationConfigurationDescription)
    (rest : List RefreshResult) (k nft : Nat) :
    waitForStateContext [replicationStatusEnabling]
        [replicationStatusEnabled] 1 20 (k + 1) nft
        (⟨some v, replicationStatusEnabled, none⟩ :: rest) =
      waitForStateContext [replicationStatusEnabling]
        [replicationStatusEnabled] 1 20 (k + 2) 0 rest := rfl

/-- Created wait, one step on an absent (nil-result) poll: the not-found
counter ticks against `NotFoundChecks`. -/
theorem createdLoop_step_absent (st : String) (rest : List RefreshResult)
    (occ nft : Nat) :
    waitForStateContext [replicationStatusEnabling]
        [replicationStatusEnabled] 1 20 occ nft
        (⟨none, st, none⟩ :: rest) =
      if 20 < nft + 1 then ⟨none, some GoErr.waitNotFoundError⟩
      else waitForStateContext [replicationStatusEnabling]
        [replicationStatusEnabled] 1 20 occ (nft + 1) rest := rfl

/-- Created wait, one step on a found poll in a state that is neither
`ENABLING` nor `ENABLED`: an unexpected-state error. -/
theorem createdLoop_step_other (v : ReplicationConfigurationDescription)
    (rest : List RefreshResult) (occ nft : Nat) (s : String)
    (hs1 : s ≠ replicationStatusEnabling)
    (hs2 : s ≠ replicationStatusEnabled) :
    waitForStateContext [replicationStatusEnabling]
        [replicationStatusEnabled] 1 20 occ nft
        (⟨some v, s, none⟩ :: rest) =
      ⟨some v, some (GoErr.unexpectedState s)⟩ := by
  simp only [waitForStateContext, targetScan]
  rw [if_neg hs2]
  simp only [List.contains_cons, List.contains_nil]
  rw [show (s == replicationStatusEnabling) = false from
    beq_eq_false_iff_ne.mpr hs1]
  rfl

/-- Deleted wait, one step on the first absent poll (occurrence counter 0):
the loop continues with the counter at 1 — one absent observation alone
does not finish the wait. -/
theorem deletedLoop_step_absent_zero (st : String) (rest : List RefreshResult)
    (nft : Nat) :
    waitForStateContext [replicationStatusDeleting] [] 2 20 0 nft
        (⟨none, st, none⟩ :: rest) =
      waitForStateContext [replicationStatusDeleting] [] 2 20 1 nft rest := rfl

/-- Deleted wait, one step on an absent poll with occurrence counter 1:
the second consecutive absent observation finishes the wait. -/
theorem deletedLoop_step_absent_one (st : String) (rest : List RefreshResult)
    (nft : Nat) :
    waitForStateContext [replicationStatusDeleting] [] 2 20 1 nft
        (⟨none, st, none⟩ :: rest) = ⟨none, none⟩ := rfl

/-- Deleted wait, one step on a found poll in the pending `DELETING`
state: the loop continues with the occurrence counter reset to 0. -/
theorem deletedLoop_step_deleting (v : ReplicationConfigurationDescription)
    (rest : List RefreshResult) (occ nft : Nat) :
    waitForStateContext [replicationStatusDeleting] [] 2 20 occ nft
        (⟨some v, replicationStatusDeleting, none⟩ :: rest) =
      waitForStateContext [replicationStatusDeleting] [] 2 20 0 0 rest := rfl

/-- Deleted wait, one step on a found poll in a state other than
`DELETING`: an unexpected-state error. -/
theorem deletedLoop_step_other (v : ReplicationConfigurationDescription)
    (rest : List RefreshResult) (occ nft : Nat) (s : String)
    (hs : s ≠ replicationStatusDeleting) :
    waitForStateContext [replicationStatusDeleting] [] 2 20 occ nft
        (⟨some v, s, none⟩ :: rest) =
      ⟨some v, some (GoErr.unexpectedState s)⟩ := by
  simp only [waitForStateContext, targetScan]
  simp only [List.contains_cons, List.contains_nil]
  rw [show (s == replicationStatusDeleting) = false from
    beq_eq_false_iff_ne.mpr hs]
  rfl

/-- An exhausted refresh sequence is the timeout. -/
theorem waitForStateContext_nil (pending target : List String)
    (cto nfc occ nft : Nat) :
    waitForStateContext pending target cto nfc occ nft [] =
      ⟨none, some GoErr.timeoutError⟩ := rfl

/-- Deleted wait, one step on an absent poll, any occurrence counter:
either the second consecutive occurrence finishes, or the counter
advances. -/
theorem deletedLoop_step_absent_gen (st : String) (rest : List RefreshResult)
    (occ nft : Nat) :
    waitForStateContext [replicationStatusDeleting] [] 2 20 occ nft
        (⟨none, st, none⟩ :: rest) =
      if 2 = occ + 1 then ⟨none, none⟩
      else waitForStateContext [replicationStatusDeleting] [] 2 20
        (occ + 1) nft rest := rfl

/-- The created wait reaches its target at the first healthy `ENABLED`
poll after healthy `ENABLING` polls, returning that poll's description. -/
theorem createdLoop_first_enabled (xs : List RefreshResult) :
    ∀ (r : RefreshResult) (ys : List RefreshResult),
    (∀ x ∈ xs, x.err = none ∧ x.result.isSome = true ∧
      x.state = replicationStatusEnabling) →
    r.err = none → r.result.isSome = true →
    r.state = replicationStatusEnabled →
    waitForStateContext [replicationStatusEnabling]
        [replicationStatusEnabled] 1 20 0 0 (xs ++ r :: ys) =
      ⟨r.result, none⟩ := by
  induction xs with
  | nil =>
    intro r ys _ h1 h2 h3
    obtain ⟨v, hv⟩ := Option.isSome_iff_exists.mp h2
    obtain ⟨a, b, c⟩ := r
    dsimp only at h1 h3 hv
    subst hv
    subst h3
    subst h1
    rw [List.nil_append]
    exact createdLoop_step_enabled v ys 0
  | cons x xs ih =>
    intro r ys hall h1 h2 h3
    obtain ⟨hxe, hxres, hxst⟩ := hall x (List.mem_cons_self x xs)
    have hxs : ∀ y ∈ xs, y.err = none ∧ y.result.isSome = true ∧
        y.state = replicationStatusEnabling :=
      fun y hy => hall y (List.mem_cons_of_mem x hy)
    obtain ⟨v, hv⟩ := Option.isSome_iff_exists.mp hxres
    obtain ⟨a, b, c⟩ := x
    dsimp only at hxe hxst hv
    subst hv
    subst hxst
    subst hxe
    rw [List.cons_append]
    rw [createdLoop_step_enabling v (xs ++ r :: ys) 0 0]
    exact ih r ys hxs h1 h2 h3

/-- The created wait times out when every poll within the budget is a
healthy `ENABLING` observation. -/
theorem createdLoop_all_enabling_timeout (rs : List RefreshResult) :
    (∀ x ∈ rs, x.err = none ∧ x.result.isSome = true ∧
      x.state = replicationStatusEnabling) →
    waitForStateContext [replicationStatusEnabling]
        [replicationStatusEnabled] 1 20 0 0 rs =
      ⟨none, some GoErr.timeoutError⟩ := by
  induction rs with
  | nil => intro _; rfl
  | cons x xs ih =>
    intro hall
    obtain ⟨hxe, hxres, hxst⟩ := hall x (List.mem_cons_self x xs)
    obtain ⟨v, hv⟩ := Option.isSome_iff_exists.mp hxres
    obtain ⟨a, b, c⟩ := x
    dsimp only at hxe hxst hv
    subst hv
    subst hxst
    subst hxe
    rw [createdLoop_step_enabling v xs 0 0]
    exact ih (fun y hy => hall y (List.mem_cons_of_mem _ hy))

/-- The created wait stops with an unexpected-state error at the first
healthy poll whose state is neither the pending `ENABLING` nor the target
`ENABLED`. -/
theorem createdLoop_first_unexpected (xs : List RefreshResult) :
    ∀ (r : RefreshResult) (ys : List RefreshResult),
    (∀ x ∈ xs, x.err = none ∧ x.result.isSome = true ∧
      x.state = replicationStatusEnabling) →
    r.err = none → r.result.isSome = true →
    r.state ≠ replicationStatusEnabling →
    r.state ≠ replicationStatusEnabled →
    waitForStateContext [replicationStatusEnabling]
        [replicationStatusEnabled] 1 20 0 0 (xs ++ r :: ys) =
      ⟨r.result, some (GoErr.unexpectedState r.state)⟩ := by
  induction xs with
  | nil =>
    intro r ys _ h1 h2 h3 h4
    obtain ⟨v, hv⟩ := Option.isSome_iff_exists.mp h2
    obtain ⟨a, b, c⟩ := r
    dsimp only at h1 h3 h4 hv
    subst hv
    subst h1
    rw [List.nil_append]
    exact createdLoop_step_other v ys 0 0 b h3 h4
  | cons x xs ih =>
    intro r ys hall h1 h2 h3 h4
    obtain ⟨hxe, hxres, hxst⟩ := hall x (List.mem_cons_self x xs)
    obtain ⟨v, hv⟩ := Option.isSome_iff_exists.mp hxres
    obtain ⟨a, b, c⟩ := x
    dsimp only at hxe hxst hv
    subst hv
    subst hxst
    subst hxe
    rw [List.cons_append]
    rw [createdLoop_step_enabling v (xs ++ r :: ys) 0 0]
    exact ih r ys (fun y hy => hall y (List.mem_cons_of_mem _ hy)) h1 h2 h3 h4

/-- The created wait returns without error only if some poll within the
budget observed the target state `ENABLED`, and the returned description is
that poll's (non-nil) result. -/
theorem createdLoop_success_requires_enabled (rs : List RefreshResult) :
    ∀ occ nft res,
    waitForStateContext [replicationStatusEnabling]
        [replicationStatusEnabled] 1 20 occ nft rs = ⟨res, none⟩ →
    ∃ r ∈ rs, r.state = replicationStatusEnabled ∧ r.result = res ∧
      res.isSome = true := by
  induction rs with
  | nil =>
    intro occ nft res h
    rw [waitForStateContext_nil] at h
    exact absurd h (by simp)
  | cons r rest ih =>
    intro occ nft res h
    obtain ⟨a, b, c⟩ := r
    cases c with
    | some e =>
      rw [waitForStateContext_step_err] at h
      exact absurd h (by simp)
    | none =>
      cases a with
      | none =>
        rw [createdLoop_step_absent] at h
        by_cases h20 : 20 < nft + 1
        · rw [if_pos h20] at h
          exact absurd h (by simp)
        · rw [if_neg h20] at h
          obtain ⟨x, hx, hp⟩ := ih occ (nft + 1) res h
          exact ⟨x, List.mem_cons_of_mem _ hx, hp⟩
      | some v =>
        by_cases hst1 : b = replicationStatusEnabled
        · subst hst1
          cases occ with
          | zero =>
            rw [createdLoop_step_enabled] at h
            injection h with hres herr
            refine ⟨⟨some v, replicationStatusEnabled, none⟩,
              List.mem_cons_self _ _, rfl, hres, ?_⟩
            rw [← hres]
            rfl
          | succ k =>
            rw [createdLoop_step_enabled_succ] at h
            obtain ⟨x, hx, hp⟩ := ih (k + 2) 0 res h
            exact ⟨x, List.mem_cons_of_mem _ hx, hp⟩
        · by_cases hst2 : b = replicationStatusEnabling
          · subst hst2
            rw [createdLoop_step_enabling] at h
            obtain ⟨x, hx, hp⟩ := ih 0 0 res h
            exact ⟨x, List.mem_cons_of_mem _ hx, hp⟩
          · rw [createdLoop_step_other v rest occ nft b hst2 hst1] at h
            exact absurd h (by simp)

/-- The deleted wait returns without error only if the refresh sequence
contains two consecutive absent (nil-result) observations — or, for a loop
already entered with occurrence counter 1, a single absent head. -/
theorem deletedLoop_success_requires_two (rs : List RefreshResult) :
    ∀ occ nft res,
    waitForStateContext [replicationStatusDeleting] [] 2 20 occ nft rs =
      ⟨res, none⟩ →
    (∃ xs a b ys, rs = xs ++ a :: b :: ys ∧ a.result = none ∧
      b.result = none) ∨
    (occ = 1 ∧ ∃ b ys, rs = b :: ys ∧ b.result = none) := by
  induction rs with
  | nil =>
    intro occ nft res h
    rw [waitForStateContext_nil] at h
    exact absurd h (by simp)
  | cons r rest ih =>
    intro occ nft res h
    obtain ⟨a, b, c⟩ := r
    cases c with
    | some e =>
      rw [waitForStateContext_step_err] at h
      exact absurd h (by simp)
    | none =>
      cases a with
      | none =>
        rw [deletedLoop_step_absent_gen] at h
        by_cases hocc : 2 = occ + 1
        · right
          refine ⟨by omega, ⟨none, b, none⟩, rest, rfl, rfl⟩
        · rw [if_neg hocc] at h
          rcases ih (occ + 1) nft res h with hp | ⟨hocc1, b', ys, hrest, hb⟩
          · left
            obtain ⟨xs, a', b', ys, hre, h1, h2⟩ := hp
            exact ⟨⟨none, b, none⟩ :: xs, a', b', ys,
              by rw [hre, List.cons_append], h1, h2⟩
          · left
            exact ⟨[], ⟨none, b, none⟩, b', ys,
              by rw [hrest, List.nil_append], rfl, hb⟩
      | some v =>
        by_cases hst : b = replicationStatusDeleting
        · subst hst
          rw [deletedLoop_step_deleting] at h
          rcases ih 0 0 res h with hp | ⟨h01, _⟩
          · left
            obtain ⟨xs, a', b', ys, hre, h1, h2⟩ := hp
            exact ⟨⟨some v, replicationStatusDeleting, none⟩ :: xs, a', b',
              ys, by rw [hre, List.cons_append], h1, h2⟩
          · exact absurd h01 (by omega)
        · rw [deletedLoop_step_other v rest occ nft b hst] at h
          exact absurd h (by simp)

/-- A deleted wait whose budget holds a single absent observation times
out: one absent poll alone is not sufficient. -/
theorem deletedLoop_single_absent (st : String) :
    waitForStateContext [replicationStatusDeleting] [] 2 20 0 0
      [⟨none, st, none⟩] = ⟨none, some GoErr.timeoutError⟩ := rfl

/-- A deleted wait observing two consecutive absent polls finishes
successfully (with a nil result, as the Go type assertion then fails). -/
theorem deletedLoop_two_absent (st1 st2 : String) (ys : List RefreshResult) :
    waitForStateContext [replicationStatusDeleting] [] 2 20 0 0
      (⟨none, st1, none⟩ :: ⟨none, st2, none⟩ :: ys) = ⟨none, none⟩ := rfl

/-- C1: `waitReplicationConfigurationCreated` polls the configuration's
status via `statusReplicationConfiguration`, treating `ENABLING` as the
only pending state: it returns the observed description exactly at the
first healthy poll whose status is `ENABLED`; a status budget of healthy
`ENABLING` polls only ends in a timeout error; any other observed status is
an unexpected-state error; and a no-error return is possible only when some
poll observed `ENABLED`. -/
theorem waitReplicationConfigurationCreated_spec (conns : List EFSConn)
    (id : String) (rs : List RefreshResult)
    (htrace : conns.mapM (fun c => statusReplicationConfiguration c id) =
      some rs) :
    (∀ xs r ys, rs = xs ++ r :: ys →
      (∀ x ∈ xs, x.err = none ∧ x.result.isSome = true ∧
        x.state = replicationStatusEnabling) →
      r.err = none → r.result.isSome = true →
      r.state = replicationStatusEnabled →
      waitReplicationConfigurationCreated conns id =
        some ⟨r.result, none⟩) ∧
    ((∀ x ∈ rs, x.err = none ∧ x.result.isSome = true ∧
        x.state = replicationStatusEnabling) →
      waitReplicationConfigurationCreated conns id =
        some ⟨none, some GoErr.timeoutError⟩) ∧
    (∀ xs r ys, rs = xs ++ r :: ys →
      (∀ x ∈ xs, x.err = none ∧ x.result.isSome = true ∧
        x.state = replicationStatusEnabling) →
      r.err = none → r.result.isSome = true →
      r.state ≠ replicationStatusEnabling →
      r.state ≠ replicationStatusEnabled →
      waitReplicationConfigurationCreated conns id =
        some ⟨r.result, some (GoErr.unexpectedState r.state)⟩) ∧
    (∀ res, waitReplicationConfigurationCreated conns id =
        some ⟨res, none⟩ →
      ∃ r ∈ rs, r.state = replicationStatusEnabled ∧ r.result = res ∧
        res.isSome = true) := by
  have hw : waitReplicationConfigurationCreated conns id =
      some (waitReplicationConfigurationCreatedLoop rs) := by
    unfold waitReplicationConfigurationCreated
    rw [htrace]
    rfl
  refine ⟨?_, ?_, ?_, ?_⟩
  · intro xs r ys hre hall h1 h2 h3
    rw [hw, hre]
    exact congrArg some (createdLoop_first_enabled xs r ys hall h1 h2 h3)
  · intro hall
    rw [hw]
    exact congrArg some (createdLoop_all_enabling_timeout rs hall)
  · intro xs r ys hre hall h1 h2 h3 h4
    rw [hw, hre]
    exact congrArg some
      (createdLoop_first_unexpected xs r ys hall h1 h2 h3 h4)
  · intro res h
    rw [hw] at h
    injection h with h2
    exact createdLoop_success_requires_enabled rs 0 0 res h2

/-- C1 witness: one healthy `ENABLING` poll followed by an `ENABLED` poll
makes the created wait return that poll's description without error. -/
theorem waitReplicationConfigurationCreated_witness :
    waitReplicationConfigurationCreated
        [demoConnWith (demoDescription "ENABLING"),
         demoConnWith (demoDescription "ENABLED")] "fs-src" =
      some ⟨some (demoDescription "ENABLED"), none⟩ :=
  (waitReplicationConfigurationCreated_spec
      [demoConnWith (demoDescription "ENABLING"),
       demoConnWith (demoDescription "ENABLED")] "fs-src"
      [demoRefresh "ENABLING", demoRefresh "ENABLED"] rfl).1
    [demoRefresh "ENABLING"] (demoRefresh "ENABLED") [] rfl
    (by decide) rfl rfl rfl

/-- C10: `waitReplicationConfigurationDeleted` succeeds only after the
configuration has been observed absent on 2 consecutive polls (as
configured by `ContinuousTargetOccurence`): a no-error return forces two
consecutive nil-result refreshes in the trace, a trace holding a single
absent observation times out, and two consecutive absent observations do
succeed. -/
theorem waitReplicationConfigurationDeleted_spec (conns : List EFSConn)
    (id : String) (rs : List RefreshResult)
    (htrace : conns.mapM (fun c => statusReplicationConfiguration c id) =
      some rs) :
    (∀ res, waitReplicationConfigurationDeleted conns id =
        some ⟨res, none⟩ →
      ∃ xs a b ys, rs = xs ++ a :: b :: ys ∧ a.result = none ∧
        b.result = none) ∧
    (∀ st, rs = [⟨none, st, none⟩] →
      waitReplicationConfigurationDeleted conns id =
        some ⟨none, some GoErr.timeoutError⟩) ∧
    (∀ st1 st2 ys, rs = ⟨none, st1, none⟩ :: ⟨none, st2, none⟩ :: ys →
      waitReplicationConfigurationDeleted conns id = some ⟨none, none⟩) := by
  have hw : waitReplicationConfigurationDeleted conns id =
      some (waitReplicationConfigurationDeletedLoop rs) := by
    unfold waitReplicationConfigurationDeleted
    rw [htrace]
    rfl
  refine ⟨?_, ?_, ?_⟩
  · intro res h
    rw [hw] at h
    injection h with h2
    rcases deletedLoop_success_requires_two rs 0 0 res h2 with hp | ⟨h01, _⟩
    · exact hp
    · exact absurd h01 (by omega)
  · intro st hre
    rw [hw, hre]
    exact congrArg some (deletedLoop_single_absent st)
  · intro st1 st2 ys hre
    rw [hw, hre]
    exact congrArg some (deletedLoop_two_absent st1 st2 ys)

/-- C10 witness: two consecutive not-found polls finish the deleted wait
without error, while the same wait over a single not-found poll would, by
the same theorem, time out. -/
theorem waitReplicationConfigurationDeleted_witness :
    waitReplicationConfigurationDeleted [demoConnNotFound, demoConnNotFound]
        "fs-src" = some ⟨none, none⟩ ∧
    waitReplicationConfigurationDeleted [demoConnNotFound] "fs-src" =
      some ⟨none, some GoErr.timeoutError⟩ :=
  ⟨(waitReplicationConfigurationDeleted_spec
      [demoConnNotFound, demoConnNotFound] "fs-src"
      [⟨none, "", none⟩, ⟨none, "", none⟩] rfl).2.2 "" "" [] rfl,
   (waitReplicationConfigurationDeleted_spec [demoConnNotFound] "fs-src"
      [⟨none, "", none⟩] rfl).2.1 "" rfl⟩
